/-
Verification of the telemetry-link core of the nanosat ground-station
controller: the binary frame codec (src/decoder.py), the JSON receive loop
and state store (src/backend.py), the text receive loop and state store
(src/udp_bridge.py), and the command dispatcher (src/backend.py).

Modelling conventions:
- wire bytes are `List Nat` (each byte < 256 where it matters);
- Python floats are modelled exactly as rationals `ℚ` (the scalings
  ×0.01, ×0.001 and the offset −20 are exact at every value the claims
  touch);
- the construct-library parse of `TelemetryPacket` is embedded as a
  sequential reader that fails in the order the library fails: stream
  exhaustion while reading a field (`truncated`), the `Const` comparison
  of the 4-byte sync word (`syncMismatch`), and the UTF-8 decode of the
  NUL-stripped 10-byte string field (`invalidText`);
- the receive loops' Python exception semantics are embedded as step
  functions on the state: every statement executed before the raising one
  has its effect, statements after it do not, and the surrounding
  `except` clause keeps the loop alive (the step function totalises).
-/

import Mathlib

namespace NanosatGS

/-! ## Frame codec (src/decoder.py)

`TelemetryPacket = Struct(
   "sync_word" / Const(b"\x1A\xCF\xFC\x1D"),
   "battery_voltage" / Int16ub,
   "panel_current" / Int16ub,
   "internal_temp" / Int8ub,
   "status_msg" / PaddedString(10, "utf-8"))` -/

/-- The 4-byte sync word `b"\x1A\xCF\xFC\x1D"`. -/
def SYNC_WORD : List Nat := [0x1A, 0xCF, 0xFC, 0x1D]

/-- UTF-8 continuation byte: `0x80–0xBF`. -/
def isCont (b : Nat) : Bool := decide (0x80 ≤ b ∧ b ≤ 0xBF)

/-- Strict UTF-8 validity of a byte sequence, as Python's
`bytes.decode("utf-8")`: rejects overlong forms, surrogates and
code points above U+10FFFF. -/
def utf8Valid : List Nat → Bool
  | [] => true
  | b :: rest =>
    if b ≤ 0x7F then utf8Valid rest
    else if b < 0xC2 then false
    else if b ≤ 0xDF then
      match rest with
      | c1 :: rest' => isCont c1 && utf8Valid rest'
      | [] => false
    else if b ≤ 0xEF then
      match rest with
      | c1 :: c2 :: rest' =>
        (if b = 0xE0 then decide (0xA0 ≤ c1 ∧ c1 ≤ 0xBF)
         else if b = 0xED then decide (0x80 ≤ c1 ∧ c1 ≤ 0x9F)
         else isCont c1) && isCont c2 && utf8Valid rest'
      | _ => false
    else if b ≤ 0xF4 then
      match rest with
      | c1 :: c2 :: c3 :: rest' =>
        (if b = 0xF0 then decide (0x90 ≤ c1 ∧ c1 ≤ 0xBF)
         else if b = 0xF4 then decide (0x80 ≤ c1 ∧ c1 ≤ 0x8F)
         else isCont c1) && isCont c2 && isCont c3 && utf8Valid rest'
      | _ => false
    else false

/-- `NullStripped` of `PaddedString`: drop the trailing `\x00` padding. -/
def rstripNul (l : List Nat) : List Nat :=
  (l.reverse.dropWhile (· == 0)).reverse

/-- Big-endian 16-bit read (`Int16ub`). -/
def be16 (hi lo : Nat) : Nat := hi * 256 + lo

/-- The failure kinds of the binary decode, in the order the construct
parse raises them inside `parse_frame`'s `try` block: a stream read past
the end of the buffer (`StreamError`) is `truncated`, a failed `Const`
comparison (`ConstError`) is `syncMismatch`, a failed UTF-8 decode of the
string field (`UnicodeDecodeError`) is `invalidText`. -/
inductive DecodeError
  | truncated
  | syncMismatch
  | invalidText
deriving DecidableEq, Repr

/-- The dictionary `parse_frame` returns on success:
`voltage = battery_voltage * 0.01`, `current = panel_current * 0.001`,
`temp = internal_temp - 20`, `msg = status_msg` (kept as its UTF-8
bytes after NUL stripping). -/
structure ParsedFrame where
  voltage : ℚ
  current : ℚ
  temp : ℤ
  msg : List Nat
deriving DecidableEq, Repr

/-- `TelemetryDecoder.parse_frame` / `TelemetryPacket.parse`, with the
internal exception kind exposed. The reads happen in field order:
the 4 sync bytes (exhaustion ⇒ `truncated`, mismatch ⇒ `syncMismatch`),
then the fixed-size numeric and string fields (exhaustion ⇒ `truncated`;
for a buffer of ≥ 4 bytes with a good sync word every exhaustion up to
byte 18 is `truncated`, collapsed into one length test), finally the
UTF-8 decode of the NUL-stripped string bytes (`invalidText`). -/
def parse_frame (raw : List Nat) : Except DecodeError ParsedFrame :=
  if raw.length < 4 then .error .truncated
  else if raw.take 4 ≠ SYNC_WORD then .error .syncMismatch
  else if raw.length < 19 then .error .truncated
  else
    let m := rstripNul ((raw.drop 9).take 10)
    if utf8Valid m then
      .ok { voltage := (be16 (raw.getD 4 0) (raw.getD 5 0) : ℚ) * (1/100)
          , current := (be16 (raw.getD 6 0) (raw.getD 7 0) : ℚ) * (1/1000)
          , temp := (raw.getD 8 0 : ℤ) - 20
          , msg := m }
    else .error .invalidText

/-- `parse_frame` as the Python caller sees it: `None` on any failure. -/
def parse_frame_opt (raw : List Nat) : Option ParsedFrame :=
  (parse_frame raw).toOption

/-- `TelemetryPacket.build` (used by `get_mock_packet`): packs the raw
integers big-endian after the sync word and NUL-pads the message bytes
to 10; fails (`struct.error` / `PaddingError`) when an integer is out of
its field's range or the encoded message exceeds 10 bytes. The `msg`
argument is the UTF-8 encoding of the `status_msg` string; `frameBytes`
is the byte layout `build` emits when its range checks pass. -/
def frameBytes (v c t : Nat) (msg : List Nat) : List Nat :=
  SYNC_WORD ++ [v / 256, v % 256, c / 256, c % 256, t]
    ++ msg ++ List.replicate (10 - msg.length) 0

def buildFrame (v c t : Nat) (msg : List Nat) : Option (List Nat) :=
  if v < 65536 ∧ c < 65536 ∧ t < 256 ∧ msg.length ≤ 10 then
    some (frameBytes v c t msg)
  else none

/-! ## Link state store and JSON receive loop (src/backend.py) -/

/-- The nested status record of the backend state
(`{"led": "OFF", "solar": "RETRACTED", "mode": "MANUAL"}`); the listener
stores whatever `packet["status"]` holds verbatim. -/
structure Status where
  led : String
  solar : String
  mode : String
deriving DecidableEq, Repr

/-- `ground_state["telemetry"]` in src/backend.py. -/
structure Telemetry where
  pitch : ℚ
  roll : ℚ
  accel_z : ℚ
  light : ℤ
  status : Status
deriving DecidableEq, Repr

/-- The shared `ground_state` dictionary in src/backend.py. -/
structure GroundState where
  connected : Bool
  last_packet_time : ℚ
  telemetry : Telemetry
deriving DecidableEq, Repr

/-- The initial `ground_state` literal. -/
def initGroundState : GroundState :=
  { connected := false
  , last_packet_time := 0
  , telemetry :=
      { pitch := 0, roll := 0, accel_z := 9.8, light := 0
      , status := { led := "OFF", solar := "RETRACTED", mode := "MANUAL" } } }

/-- One datagram as seen by `udp_listener` after `json.loads`:
either the bytes/JSON are rejected by `json.loads` (or `data.decode`),
or the JSON value is not an object (so the later `packet.get` calls raise
`AttributeError`), or it is an object carrying an optional subset of the
telemetry keys. -/
inductive JsonPayload
  | malformed
  | nonObject
  | object (pitch roll accel_z : Option ℚ) (light : Option ℤ)
           (status : Option Status)
deriving DecidableEq

/-- One iteration of `udp_listener`'s `while True` body on a received
datagram, at wall-clock time `now`. The `try/except` wrapper means every
failure leaves exactly the writes already executed:
- `json.loads` failure: nothing was written;
- a non-object JSON value: `last_packet_time` and `connected` were
  already written when `packet.get("pitch", ...)` raises;
- an object: every telemetry key is written from `packet.get(key,
  default)` — an absent key stores the default, not the previous value —
  except `status`, which is written only when present
  (`if "status" in packet`). -/
def udp_listener_step (s : GroundState) (now : ℚ) (p : JsonPayload) :
    GroundState :=
  match p with
  | .malformed => s
  | .nonObject => { s with last_packet_time := now, connected := true }
  | .object pi ro az li st =>
      { connected := true
      , last_packet_time := now
      , telemetry :=
          { pitch := pi.getD 0
          , roll := ro.getD 0
          , accel_z := az.getD 9.8
          , light := li.getD 0
          , status := st.getD s.telemetry.status } }

/-- `get_status` in src/backend.py: the `/status` handler mutates
`ground_state["connected"]` to `False` when the last packet is older
than 2.0 seconds, then returns `ground_state`; the returned snapshot is
the (possibly mutated) state itself. -/
def get_status (s : GroundState) (now : ℚ) : GroundState :=
  if now - s.last_packet_time > 2 then { s with connected := false } else s

/-! ## Command dispatcher (src/backend.py) -/

/-- The closed command set the operator UI issues
(src/frontend.py buttons / sim_satellite.py `command_listener`). -/
def COMMANDS : List String :=
  ["LED_ON", "LED_OFF", "DEPLOY_SOLAR", "RETRACT_SOLAR", "AUTO_SOLAR", "PING"]

/-- UTF-8 encoding of one code point. -/
def utf8EncodeChar (c : Nat) : List Nat :=
  if c < 0x80 then [c]
  else if c < 0x800 then [0xC0 + c / 64, 0x80 + c % 64]
  else if c < 0x10000 then [0xE0 + c / 4096, 0x80 + c / 64 % 64, 0x80 + c % 64]
  else [0xF0 + c / 262144, 0x80 + c / 4096 % 64, 0x80 + c / 64 % 64,
        0x80 + c % 64]

/-- UTF-8 bytes of a string (`str.encode("utf-8")`). -/
def utf8Bytes (s : String) : List Nat :=
  s.data.flatMap (fun ch => utf8EncodeChar ch.toNat)

/-- The JSON reply of the `/command` handler. -/
structure DispatchReply where
  status : String
  sent : Option String
deriving DecidableEq, Repr

/-- `send_command` in src/backend.py: creates a UDP socket and sends the
UTF-8 bytes of `cmd.action` as one datagram to the fixed destination,
returning `{"status": "success", "sent": action}`; the `except` branch
returns an error reply only when a local socket operation raises, which
the boolean `socketOk` models (UDP `sendto` itself succeeds locally
whether or not any receiver is listening). The second component is the
list of datagram payloads put on the wire. -/
def send_command (action : String) (socketOk : Bool) :
    DispatchReply × List (List Nat) :=
  if socketOk then
    ({ status := "success", sent := some action }, [utf8Bytes action])
  else
    ({ status := "error", sent := none }, [])

/-! ## Text receive loop and state store (src/udp_bridge.py) -/

/-- The shared `current_telemetry` dictionary in src/udp_bridge.py. -/
structure BridgeState where
  connected : Bool
  last_packet_time : ℚ
  pitch : ℚ
  roll : ℚ
  yaw : ℚ
  accel_z : ℚ
  light : ℤ
deriving DecidableEq, Repr

/-- The initial `current_telemetry` literal. -/
def initBridgeState : BridgeState :=
  { connected := false, last_packet_time := 0
  , pitch := 0, roll := 0, yaw := 0, accel_z := 9.8, light := 0 }

/-- One comma-separated part of a text datagram, carrying the outcomes of
the Python conversions the loop applies to it: `asFloat` is the value of
`float(part)` when that call succeeds, `asInt` the value of `int(part)`.
`raw` is the part's text, compared against the `"SAT1"` tag. -/
structure TextPart where
  raw : String
  asFloat : Option ℚ
  asInt : Option ℤ
deriving DecidableEq

instance : Inhabited TextPart := ⟨⟨"", none, none⟩⟩

/-- One iteration of `_udp_listener_loop`'s body on a received datagram:
`none` models bytes `data.decode("utf-8")` rejects; otherwise the
datagram is its list of comma-separated parts. The guard
`len(parts) >= 5 and parts[0] == "SAT1"` drops non-matching datagrams
untouched; inside the guard the four conversions and assignments run in
source order, so a failing conversion leaves exactly the fields already
assigned (`pitch`, then `roll`, then `light`) written and never reaches
the `last_packet_time`/`connected` updates. -/
def udp_listener_loop_step (s : BridgeState) (now : ℚ)
    (d : Option (List TextPart)) : BridgeState :=
  match d with
  | none => s
  | some parts =>
    if 5 ≤ parts.length ∧ (parts.getD 0 default).raw = "SAT1" then
      match (parts.getD 1 default).asFloat with
      | none => s
      | some pv =>
        let s1 := { s with pitch := pv }
        match (parts.getD 2 default).asFloat with
        | none => s1
        | some rv =>
          let s2 := { s1 with roll := rv }
          match (parts.getD 3 default).asInt with
          | none => s2
          | some lv =>
            let s3 := { s2 with light := lv }
            match (parts.getD 4 default).asFloat with
            | none => s3
            | some av =>
              { s3 with accel_z := av
                      , last_packet_time := now, connected := true }
    else s

/-- `get_latest_data` in src/udp_bridge.py: mutates
`current_telemetry["connected"]` to `False` when the last packet is older
than 3.0 seconds, then returns `current_telemetry`. -/
def get_latest_data (s : BridgeState) (now : ℚ) : BridgeState :=
  if now - s.last_packet_time > 3 then { s with connected := false } else s

deriving instance DecidableEq for Except

/-! ## Helper lemmas -/

lemma dropWhile_zero_replicate_append (k : Nat) (l : List Nat) :
    (List.replicate k 0 ++ l).dropWhile (· == 0) = l.dropWhile (· == 0) := by
  induction k with
  | zero => simp
  | succ n ih => simp [List.replicate_succ, List.dropWhile, ih]

lemma rstripNul_append_replicate (msg : List Nat) (k : Nat)
    (h : msg.getLast? ≠ some 0) :
    rstripNul (msg ++ List.replicate k 0) = msg := by
  unfold rstripNul
  rw [List.reverse_append, List.reverse_replicate,
      dropWhile_zero_replicate_append]
  cases hrev : msg.reverse with
  | nil =>
    simpa using congrArg List.reverse hrev.symm
  | cons a t =>
    have ha : a ≠ 0 := by
      intro h0
      apply h
      rw [← List.head?_reverse, hrev, h0]
      rfl
    rw [List.dropWhile_cons]
    simp only [beq_iff_eq, ha, if_false]
    rw [← hrev, List.reverse_reverse]

lemma foldl_malformed_id (s : GroundState) (now : ℚ) (ds : List JsonPayload)
    (hds : ∀ d ∈ ds, d = JsonPayload.malformed) :
    ds.foldl (fun u d => udp_listener_step u now d) s = s := by
  induction ds with
  | nil => rfl
  | cons d tl ih =>
    have hd := hds d (List.mem_cons_self d tl)
    rw [List.foldl_cons, hd]
    exact ih (fun e he => hds e (List.mem_cons_of_mem d he))

/-- The valid mock frame of the spec scenario: raw voltage 800
(bytes `3, 32`), raw current 500 (bytes `1, 244`), raw temp 55,
message `"ALL_OK"` NUL-padded to 10 bytes. -/
def allOkFrame : List Nat :=
  [0x1A, 0xCF, 0xFC, 0x1D, 3, 32, 1, 244, 55,
   65, 76, 76, 95, 79, 75, 0, 0, 0, 0]

/-- The split parts of the text datagram `"SAT1,2.5,abc,3,9.8"`:
the tag matches and the pitch field parses, but the roll field `"abc"`
does not. -/
def badParts : List TextPart :=
  [⟨"SAT1", none, none⟩, ⟨"2.5", some (5/2), none⟩, ⟨"abc", none, none⟩,
   ⟨"3", some 3, some 3⟩, ⟨"9.8", some (49/5), none⟩]

/-! ## Claim C1 -/

/-- Claim C1, counterexample: in the initial state (`last_update = T0 = 0`,
stored `connected = false`) a read at `now = 1 ∈ [T0, T0 + 2]` returns
`connected = false`, while the claim's formula `now - last_update ≤
timeout` is true: the query only lowers a stale flag, it never derives a
fresh one. -/
theorem connected_true_within_timeout_cex :
    initGroundState.last_packet_time ≤ 1 ∧
    (1 : ℚ) - initGroundState.last_packet_time ≤ 2 ∧
    (get_status initGroundState 1).connected = false := by
  refine ⟨by norm_num [initGroundState], by norm_num [initGroundState], ?_⟩
  norm_num [get_status, initGroundState]

/-- Claim C1, amended: when the stored flag is already true (as the
receiver sets it with every accepted packet), the flag returned by a
state read equals `now - last_update ≤ timeout`; and the timeout is not
one single configured value: it is 2.0 s in `backend.get_status` and
3.0 s in `udp_bridge.get_latest_data`. -/
theorem connected_iff_timeout_when_flag_set (sg : GroundState)
    (sb : BridgeState) (now : ℚ)
    (hg : sg.connected = true) (hb : sb.connected = true) :
    ((get_status sg now).connected = true ↔ now - sg.last_packet_time ≤ 2) ∧
    ((get_latest_data sb now).connected = true ↔
      now - sb.last_packet_time ≤ 3) := by
  constructor
  · unfold get_status
    split_ifs with h
    · simp
      linarith
    · simp [hg]
      linarith
  · unfold get_latest_data
    split_ifs with h
    · simp
      linarith
    · simp [hb]
      linarith

/-- Claim C1, witness: the amended theorem applied to a connected state
read at `now = 1`. -/
theorem connected_iff_timeout_when_flag_set_witness :
    ((get_status ⟨true, 0, initGroundState.telemetry⟩ 1).connected = true ↔
      (1 : ℚ) -
        (⟨true, 0, initGroundState.telemetry⟩ :
          GroundState).last_packet_time ≤ 2) :=
  (connected_iff_timeout_when_flag_set ⟨true, 0, initGroundState.telemetry⟩
    ⟨true, 0, 0, 0, 0, 9.8, 0⟩ 1 rfl rfl).1

/-! ## Claim C2 -/

/-- Claim C2, counterexample: the text datagram `"SAT1,2.5,abc,3,9.8"` is
malformed (its roll field fails `float`), yet the loop iteration writes
the already-parsed pitch into the stored state: the state is not left
unchanged. -/
theorem midparse_write_cex :
    (udp_listener_loop_step initBridgeState 7 (some badParts)).pitch = 5/2 ∧
    initBridgeState.pitch = 0 ∧
    udp_listener_loop_step initBridgeState 7 (some badParts)
      ≠ initBridgeState := by
  refine ⟨?_, rfl, ?_⟩
  · simp [udp_listener_loop_step, badParts, initBridgeState]
  · simp [udp_listener_loop_step, badParts, initBridgeState]

/-- Claim C2, amended: the loop itself never terminates on a malformed
datagram (each step totalises), and a datagram rejected before its first
state write — JSON/UTF-8 rejection, a text datagram failing the
tag/field-count guard, or one whose first numeric field fails to parse —
leaves the state unchanged; a sequence of JSON-rejected datagrams
followed by one full valid frame leaves exactly the valid frame's
values. (Datagrams failing mid-extraction, as in the counterexample, do
leave partial writes.) -/
theorem rejected_datagrams_leave_state (s : GroundState) (b : BridgeState)
    (now : ℚ) (parts : List TextPart) (ds : List JsonPayload)
    (hds : ∀ d ∈ ds, d = JsonPayload.malformed) :
    udp_listener_step s now .malformed = s ∧
    udp_listener_loop_step b now none = b ∧
    (¬ (5 ≤ parts.length ∧ (parts.getD 0 default).raw = "SAT1") →
      udp_listener_loop_step b now (some parts) = b) ∧
    ((parts.getD 1 default).asFloat = none →
      udp_listener_loop_step b now (some parts) = b) ∧
    ds.foldl (fun u d => udp_listener_step u now d) s = s ∧
    (∀ pi ro az li st,
      udp_listener_step (ds.foldl (fun u d => udp_listener_step u now d) s)
          now (.object (some pi) (some ro) (some az) (some li) (some st)) =
        ⟨true, now, ⟨pi, ro, az, li, st⟩⟩) := by
  refine ⟨rfl, rfl, ?_, ?_, foldl_malformed_id s now ds hds, ?_⟩
  · intro h
    simp only [udp_listener_loop_step]
    rw [if_neg h]
  · intro h
    simp only [udp_listener_loop_step]
    split_ifs with hg
    · rw [h]
    · rfl
  · intro pi ro az li st
    simp [udp_listener_step]

/-- Claim C2, witness: three JSON-rejected datagrams in a row leave the
initial state untouched. -/
theorem rejected_datagrams_leave_state_witness :
    ([JsonPayload.malformed, .malformed, .malformed].foldl
        (fun u d => udp_listener_step u 3 d) initGroundState)
      = initGroundState :=
  (rejected_datagrams_leave_state initGroundState initBridgeState 3 []
    [JsonPayload.malformed, .malformed, .malformed]
    (by simp)).2.2.2.2.1

/-! ## Claim C3 -/

/-- Claim C3, counterexample: a decoded payload carrying none of the
telemetry keys resets the stored pitch from 5 to the default 0 instead
of retaining it. -/
theorem absent_field_reset_cex :
    ({ initGroundState with
        telemetry := { initGroundState.telemetry with pitch := 5 }
      } : GroundState).telemetry.pitch = 5 ∧
    (udp_listener_step
        { initGroundState with
          telemetry := { initGroundState.telemetry with pitch := 5 } }
        3 (.object none none none none none)).telemetry.pitch = 0 := by
  constructor
  · rfl
  · simp [udp_listener_step]

/-- Claim C3, amended: on a successfully decoded payload the receiver
sets `last_update = now` and `connected = true`, but it does not merge:
every telemetry field absent from the payload is reset to its fixed
default (`pitch 0`, `roll 0`, `accel_z 9.8`, `light 0`); only the
`status` field retains its previous stored value when absent. -/
theorem object_update_fields (s : GroundState) (now : ℚ)
    (pi ro az : Option ℚ) (li : Option ℤ) (st : Option Status) :
    (udp_listener_step s now (.object pi ro az li st)).connected = true ∧
    (udp_listener_step s now (.object pi ro az li st)).last_packet_time
      = now ∧
    (udp_listener_step s now (.object pi ro az li st)).telemetry.pitch
      = pi.getD 0 ∧
    (udp_listener_step s now (.object pi ro az li st)).telemetry.roll
      = ro.getD 0 ∧
    (udp_listener_step s now (.object pi ro az li st)).telemetry.accel_z
      = az.getD 9.8 ∧
    (udp_listener_step s now (.object pi ro az li st)).telemetry.light
      = li.getD 0 ∧
    (udp_listener_step s now (.object pi ro az li st)).telemetry.status
      = st.getD s.telemetry.status := by
  simp [udp_listener_step]

/-! ## Claim C4 -/

/-- Claim C4, counterexample: serving a snapshot is not read-only — a
stale read mutates the stored `connected` field from true to false. -/
theorem get_status_mutates_cex :
    get_status { initGroundState with connected := true } 10
      ≠ { initGroundState with connected := true } := by
  norm_num [get_status, initGroundState]

/-- Claim C4, amended: a state read never changes `last_update` or any
telemetry field, and never raises the `connected` flag; but it is not
read-only: on a stale read (`now - last_update` over the timeout) it
writes `connected := false` into the shared state. Within the timeout
the state is fully unchanged. -/
theorem query_readonly_fields (s : GroundState) (b : BridgeState)
    (now : ℚ) :
    (get_status s now).last_packet_time = s.last_packet_time ∧
    (get_status s now).telemetry = s.telemetry ∧
    ((get_status s now).connected = true → s.connected = true) ∧
    (now - s.last_packet_time ≤ 2 → get_status s now = s) ∧
    (get_latest_data b now).last_packet_time = b.last_packet_time ∧
    (get_latest_data b now).pitch = b.pitch ∧
    (get_latest_data b now).roll = b.roll ∧
    (get_latest_data b now).yaw = b.yaw ∧
    (get_latest_data b now).accel_z = b.accel_z ∧
    (get_latest_data b now).light = b.light ∧
    ((get_latest_data b now).connected = true → b.connected = true) ∧
    (now - b.last_packet_time ≤ 3 → get_latest_data b now = b) := by
  unfold get_status get_latest_data
  split_ifs with h1 h2 <;> simp_all <;> try constructor
  all_goals (intro h; linarith)

/-- Claim C4, witness: a fresh read returns the initial state entirely
unchanged. -/
theorem query_readonly_fields_witness :
    get_status initGroundState 0 = initGroundState :=
  (query_readonly_fields initGroundState initBridgeState 0).2.2.2.1
    (by norm_num [initGroundState])

/-! ## Claim C5 -/

/-- Claim C5, counterexample: the 4-byte buffer `[0,0,0,0]` is shorter
than 19 bytes, yet decode fails with `syncMismatch`, not `truncated`:
the construct parse checks the sync constant before it reaches the
fields whose reads would exhaust the stream. -/
theorem short_wrong_sync_cex :
    ([0, 0, 0, 0] : List Nat).length < 19 ∧
    parse_frame [0, 0, 0, 0] ≠ .error .truncated ∧
    parse_frame [0, 0, 0, 0] = .error .syncMismatch := by
  decide

/-- Claim C5, amended: every buffer shorter than 19 bytes fails to
decode, and the failure kind is `truncated` exactly when the buffer is
shorter than 4 bytes or its first 4 bytes equal the sync constant;
a buffer of 4 to 18 bytes whose first 4 bytes differ from the sync
constant fails with `syncMismatch` instead. -/
theorem parse_frame_short_fails (raw : List Nat) (h : raw.length < 19) :
    (∃ e, parse_frame raw = .error e) ∧
    (parse_frame raw = .error .truncated ↔
      raw.length < 4 ∨ raw.take 4 = SYNC_WORD) := by
  simp only [parse_frame]
  split_ifs with h4 hs
  · exact ⟨⟨_, rfl⟩, by simp [h4]⟩
  · exact ⟨⟨_, rfl⟩, by simp [h4, hs]⟩
  · exact ⟨⟨_, rfl⟩, by simp [not_not.mp hs]⟩

/-- Claim C5, witness: a 5-byte buffer starting with the sync constant
fails with `truncated`. -/
theorem parse_frame_short_fails_witness :
    parse_frame [0x1A, 0xCF, 0xFC, 0x1D, 7] = .error .truncated :=
  (parse_frame_short_fails [0x1A, 0xCF, 0xFC, 0x1D, 7] (by decide)).2.mpr
    (Or.inr (by decide))

/-! ## Claim C6 -/

/-- Claim C6, confirmed: every buffer of at least 4 bytes whose first 4
bytes differ from the sync constant fails with `syncMismatch`, whatever
the remaining bytes hold. -/
theorem parse_frame_sync_mismatch (raw : List Nat) (h4 : 4 ≤ raw.length)
    (hs : raw.take 4 ≠ SYNC_WORD) :
    parse_frame raw = .error .syncMismatch := by
  simp only [parse_frame]
  rw [if_neg (by omega), if_pos hs]

/-- Claim C6, witness: a 19-byte buffer that is a valid frame except for
its zeroed sync word fails with `syncMismatch`. -/
theorem parse_frame_sync_mismatch_witness :
    parse_frame
        [0, 0, 0, 0, 3, 32, 1, 244, 55, 65, 76, 76, 95, 79, 75, 0, 0, 0, 0]
      = .error .syncMismatch :=
  parse_frame_sync_mismatch
    [0, 0, 0, 0, 3, 32, 1, 244, 55, 65, 76, 76, 95, 79, 75, 0, 0, 0, 0]
    (by decide) (by decide)

/-! ## Claim C7 -/

/-- Claim C7, confirmed: every successful decode carries exactly the
fixed linear scalings of the raw big-endian fields — voltage = raw ×
0.01, current = raw × 0.001, temperature = raw − 20 — with no clamping:
the formulas hold whatever the raw values are. -/
theorem parse_frame_linear_scaling (raw : List Nat) (p : ParsedFrame)
    (h : parse_frame raw = .ok p) :
    p.voltage = (be16 (raw.getD 4 0) (raw.getD 5 0) : ℚ) * (1/100) ∧
    p.current = (be16 (raw.getD 6 0) (raw.getD 7 0) : ℚ) * (1/1000) ∧
    p.temp = (raw.getD 8 0 : ℤ) - 20 ∧
    p.msg = rstripNul ((raw.drop 9).take 10) := by
  simp only [parse_frame] at h
  split_ifs at h with h1 h2 h3 h4
  · injection h with h
    subst h
    simp

/-- Claim C7, witness: the spec scenario frame (raw voltage 800, current
500, temp 55, message `"ALL_OK"` padded) decodes to voltage 8.00,
current 0.5, temp 35, message `"ALL_OK"`, and 8 is the scaled first
raw field. -/
theorem parse_frame_linear_scaling_witness :
    (⟨8, 1/2, 35, [65, 76, 76, 95, 79, 75]⟩ : ParsedFrame).voltage
      = (be16 (allOkFrame.getD 4 0) (allOkFrame.getD 5 0) : ℚ) * (1/100) :=
  (parse_frame_linear_scaling allOkFrame
    ⟨8, 1/2, 35, [65, 76, 76, 95, 79, 75]⟩
    (by
      have hr : rstripNul [65, 76, 76, 95, 79, 75, 0, 0, 0, 0]
          = [65, 76, 76, 95, 79, 75] := by decide
      have hv : utf8Valid [65, 76, 76, 95, 79, 75] = true := by decide
      simp [parse_frame, allOkFrame, SYNC_WORD, be16, hr, hv]
      norm_num)).1

/-! ## Claim C8 -/

/-- Claim C8, confirmed: for every representable input — raw voltage and
current in uint16 range, raw temp in uint8 range, a message of at most
10 valid UTF-8 bytes (taken modulo the padding: trailing NUL bytes of
the message are indistinguishable from the field's padding, so the
message is one without them) — the encoder succeeds and decoding its
output recovers every field: the raw integers under the fixed scalings
and the message verbatim. -/
theorem decode_encode_roundtrip (v c t : Nat) (msg : List Nat)
    (hv : v < 65536) (hc : c < 65536) (ht : t < 256)
    (hm : msg.length ≤ 10) (hvalid : utf8Valid msg = true)
    (hlast : msg.getLast? ≠ some 0) :
    buildFrame v c t msg = some (frameBytes v c t msg) ∧
    parse_frame (frameBytes v c t msg) =
      .ok { voltage := (v : ℚ) * (1/100)
          , current := (c : ℚ) * (1/1000)
          , temp := (t : ℤ) - 20
          , msg := msg } := by
  constructor
  · simp only [buildFrame]
    rw [if_pos ⟨hv, hc, ht, hm⟩]
  · have hpad : msg ++ List.replicate (10 - msg.length) 0 =
        (msg ++ List.replicate (10 - msg.length) 0).take 10 := by
      rw [List.take_of_length_le]
      simp
      omega
    have hstrip :
        rstripNul ((msg ++ List.replicate (10 - msg.length) 0).take 10)
          = msg := by
      rw [← hpad, rstripNul_append_replicate _ _ hlast]
    simp only [frameBytes, parse_frame, SYNC_WORD, List.cons_append,
               List.nil_append]
    norm_num [List.getD_cons_succ, List.getD_cons_zero, be16]
    rw [if_neg (by omega), if_neg (by omega), hstrip, if_pos hvalid]
    have hv256 : ((v / 256 : Nat) : ℚ) * 256 + ((v % 256 : Nat) : ℚ)
        = (v : ℚ) := by
      have hd : ((v / 256) * 256 + v % 256 : Nat) = v := by omega
      calc ((v / 256 : Nat) : ℚ) * 256 + ((v % 256 : Nat) : ℚ)
          = (((v / 256) * 256 + v % 256 : Nat) : ℚ) := by push_cast ; ring
        _ = (v : ℚ) := by rw [hd]
    have hc256 : ((c / 256 : Nat) : ℚ) * 256 + ((c % 256 : Nat) : ℚ)
        = (c : ℚ) := by
      have hd : ((c / 256) * 256 + c % 256 : Nat) = c := by omega
      calc ((c / 256 : Nat) : ℚ) * 256 + ((c % 256 : Nat) : ℚ)
          = (((c / 256) * 256 + c % 256 : Nat) : ℚ) := by push_cast ; ring
        _ = (c : ℚ) := by rw [hd]
    rw [hv256, hc256]

/-- Claim C8, witness: the round trip at the spec scenario's raw values.
-/
theorem decode_encode_roundtrip_witness :
    buildFrame 800 500 55 [65, 76, 76, 95, 79, 75]
        = some (frameBytes 800 500 55 [65, 76, 76, 95, 79, 75]) ∧
    parse_frame (frameBytes 800 500 55 [65, 76, 76, 95, 79, 75]) =
      .ok { voltage := ((800 : Nat) : ℚ) * (1/100)
          , current := ((500 : Nat) : ℚ) * (1/1000)
          , temp := ((55 : Nat) : ℤ) - 20
          , msg := [65, 76, 76, 95, 79, 75] } :=
  decode_encode_roundtrip 800 500 55 [65, 76, 76, 95, 79, 75]
    (by decide) (by decide) (by decide) (by decide) (by decide) (by decide)

/-! ## Claim C9 -/

/-- Claim C9, confirmed: dispatching any action string — the handler
performs no membership test against the closed command set, so
unrecognized tokens go out verbatim — puts exactly one datagram on the
wire whose payload is the UTF-8 bytes of the action and returns the
success reply; only a local socket failure produces the error reply, in
which case nothing is sent. -/
theorem send_command_verbatim (action : String) :
    (send_command action true).2 = [utf8Bytes action] ∧
    (send_command action true).2.length = 1 ∧
    (send_command action true).1 = ⟨"success", some action⟩ ∧
    (send_command action false).1.status = "error" ∧
    (send_command action false).2 = [] := by
  simp [send_command]

/-! ## Claim C10 -/

/-- Claim C10, confirmed: a buffer of at least 19 bytes with a good sync
word and a decodable string field parses successfully, and the result is
computed from the first 19 bytes alone — trailing bytes are ignored. -/
theorem parse_frame_ignores_trailing (raw : List Nat)
    (h19 : 19 ≤ raw.length) (hs : raw.take 4 = SYNC_WORD)
    (hu : utf8Valid (rstripNul ((raw.drop 9).take 10)) = true) :
    parse_frame raw =
      .ok { voltage := (be16 (raw.getD 4 0) (raw.getD 5 0) : ℚ) * (1/100)
          , current := (be16 (raw.getD 6 0) (raw.getD 7 0) : ℚ) * (1/1000)
          , temp := (raw.getD 8 0 : ℤ) - 20
          , msg := rstripNul ((raw.drop 9).take 10) } ∧
    parse_frame raw = parse_frame (raw.take 19) := by
  have hfull : parse_frame raw =
      .ok { voltage := (be16 (raw.getD 4 0) (raw.getD 5 0) : ℚ) * (1/100)
          , current := (be16 (raw.getD 6 0) (raw.getD 7 0) : ℚ) * (1/1000)
          , temp := (raw.getD 8 0 : ℤ) - 20
          , msg := rstripNul ((raw.drop 9).take 10) } := by
    simp only [parse_frame]
    rw [if_neg (by omega), if_neg (by simp [hs]), if_neg (by omega),
        if_pos hu]
  refine ⟨hfull, ?_⟩
  have hlen : (raw.take 19).length = 19 := by
    simp [List.length_take]
    omega
  have htake4 : (raw.take 19).take 4 = raw.take 4 := by
    norm_num [List.take_take]
  have hdrop : ((raw.take 19).drop 9).take 10 = (raw.drop 9).take 10 := by
    norm_num [List.drop_take, List.take_take]
  have hgetD : ∀ i, i < 19 → (raw.take 19).getD i 0 = raw.getD i 0 := by
    intro i hi
    simp [List.getD, List.getElem?_take, hi]
  rw [hfull]
  simp only [parse_frame, hlen, htake4, hdrop, hs]
  rw [if_neg (by omega), if_neg (by simp), if_neg (by omega), if_pos hu]
  simp [hgetD 4 (by omega), hgetD 5 (by omega), hgetD 6 (by omega),
        hgetD 7 (by omega), hgetD 8 (by omega)]

/-- Claim C10, witness: the valid mock frame with three trailing junk
bytes parses the same as its first 19 bytes. -/
theorem parse_frame_ignores_trailing_witness :
    parse_frame (allOkFrame ++ [9, 9, 9])
      = parse_frame ((allOkFrame ++ [9, 9, 9]).take 19) :=
  (parse_frame_ignores_trailing (allOkFrame ++ [9, 9, 9])
    (by decide) (by decide) (by decide)).2

end NanosatGS
